import Mathlib

/-!
Shallow embedding of `src/plantv1_2.ino` (qnvitor/upabaca), an ESP32 plant
irrigation controller.  The repository file contains two variants of the
sketch: the light-aware variant (lines 1-330, called `V1` below) and the
simpler variant without the ambient-light condition (lines 331-599, called
`V2` below).

Hardware effects (pin writes, delays, HTTP requests, serial logs) are
modelled as an explicit trace of events.  C `int` values are modelled as
`Int`; the two DHT float readings (humidity, temperature) only flow through
unchanged into the telemetry URL, so they are modelled as `Int` as well
(their printed rendering is abstracted by `toString`).  Environment reads
(WiFi status, `getLocalTime`, DHT reads) are modelled as explicit inputs or
as read streams indexed by the number of prior reads in the cycle.
-/

namespace Plant

/-- Pin levels written by `digitalWrite`. -/
inductive PinLevel
  | high
  | low
deriving DecidableEq

/-- Observable effects of the sketch: `digitalWrite`, `delay`,
`Serial.println` logs, and the HTTP GET issued by `HTTPClient`. -/
inductive Event
  | pinWrite (pin : Int) (level : PinLevel)
  | delayMs (ms : Int)
  | log (msg : String)
  | httpGet (url : String)
deriving DecidableEq

-- ---------------- pin configuration (lines 37-43) ----------------
def LED_PIN : Int := 26
def BOIA_PIN : Int := 27
def RELE_PIN : Int := 14

-- ---------------- limits and constants (lines 54-61) ----------------
def SOIL_MOISTURE_THRESHOLD : Int := 1200
/-- Embeds `const int WIFI_MAX_ATTEMPTS = 15` (line 56); the attempt counter only
counts upward from 0, so it is modelled as `Nat`. -/
def WIFI_MAX_ATTEMPTS : Nat := 15
def LED_BLINK_SHORT : Int := 200
def LED_BLINK_LONG : Int := 300
def PUMP_ON_TIME_MS : Int := 3000
def LOOP_DELAY_MS : Int := 15000
def LDR_DARK_THRESHOLD : Int := 1500

-- ---------------- night-window rule (lines 63-69, identical at 363-369) --
def NIGHT_START_HOUR : Int := 18
def NIGHT_END_HOUR : Int := 12

/-- Embeds `bool isNightHour(int hour)` (lines 67-69; identical in both variants):
`return (hour >= NIGHT_START_HOUR || hour < NIGHT_END_HOUR);` -/
def isNightHour (hour : Int) : Bool :=
  decide (hour ≥ NIGHT_START_HOUR) || decide (hour < NIGHT_END_HOUR)

/-- Embeds `void blinkLED(int times, int delayTime)` (lines 173-180; identical in
both variants): `times` iterations of LED on, delay, LED off, delay.  The
loop `for (int i = 0; i < times; i++)` runs `times` iterations for the
non-negative counts it is called with, so the count is modelled as `Nat`. -/
def blinkLED : Nat → Int → List Event
  | 0, _ => []
  | n + 1, delayTime =>
    [Event.pinWrite LED_PIN PinLevel.high, Event.delayMs delayTime,
     Event.pinWrite LED_PIN PinLevel.low, Event.delayMs delayTime] ++
    blinkLED n delayTime

/-- The URL string built by `sendToThingSpeak` (lines 192-199; identical in
both variants):
`String("http://api.thingspeak.com/update?api_key=") + WRITE_KEY +
 "&field1=" + luz + ... + "&field6=" + agua`. -/
def thingSpeakURL (writeKey : String) (luz solo umidAr temp bomba agua : Int) :
    String :=
  "http://api.thingspeak.com/update?api_key=" ++ writeKey ++
    "&field1=" ++ toString luz ++
    "&field2=" ++ toString solo ++
    "&field3=" ++ toString umidAr ++
    "&field4=" ++ toString temp ++
    "&field5=" ++ toString bomba ++
    "&field6=" ++ toString agua

/-- Embeds `void sendToThingSpeak(int luz, int solo, float umidAr, float temp,
int bomba, int agua)` (lines 185-211; byte-identical in both variants,
lines 463-489).  `connected` is the value of `WiFi.status() == WL_CONNECTED`
read at the top of the function; `httpCode` is the result returned by
`http.GET()` when the request is issued.  If not connected the function
logs and returns without building a request. -/
def sendToThingSpeak (connected : Bool) (writeKey : String)
    (luz solo umidAr temp bomba agua : Int) (httpCode : Int) : List Event :=
  if !connected then
    [Event.log "Sem Wi-Fi, não enviando ao ThingSpeak."]
  else
    [Event.httpGet (thingSpeakURL writeKey luz solo umidAr temp bomba agua)] ++
    (if httpCode > 0 then
      [Event.log ("ThingSpeak atualizado! Código: " ++ toString httpCode)]
    else
      [Event.log "Erro ao enviar ao ThingSpeak."])

/-- Embeds `bool updateLocalTime()` (lines 156-168; identical in both variants).
The `getLocalTime(&timeinfo)` read is modelled as an `Option Int` (the hour
on success).  Returns `(function result, new value of timeValid)`: on a
failed read it sets `timeValid = false` and returns `false`; on success it
sets `timeValid = true` and returns `true`. -/
def updateLocalTime (read : Option Int) : Bool × Bool :=
  match read with
  | none => (false, false)
  | some _ => (true, true)

-- ---------------- trace observers ----------------

/-- The sequence of levels written to the relay pin (`RELE_PIN`) in a trace. -/
def relayLevels (es : List Event) : List PinLevel :=
  es.filterMap fun e =>
    match e with
    | Event.pinWrite p l => if p = RELE_PIN then some l else none
    | _ => none

/-- The URLs of the HTTP GET requests issued in a trace. -/
def sentURLs (es : List Event) : List String :=
  es.filterMap fun e =>
    match e with
    | Event.httpGet u => some u
    | _ => none

/-- Whether a trace contains a delay at the long blink interval; within the
watering branches this happens exactly inside `blinkLED(5, LED_BLINK_LONG)`. -/
def containsLongBlink (es : List Event) : Bool :=
  es.any fun e => e = Event.delayMs LED_BLINK_LONG

end Plant

namespace Plant.V1

open Plant

/-- The branch part of `void handleWateringLogic(int soil, bool haAgua,
int hour, int lightValue)` of the light-aware variant (lines 239-282):
computes `drySoil`, `isNight`, `isDark`, selects one of the four branches,
and produces the branch's effect trace together with the final value of the
local `bombaLigada`. -/
def wateringBranch (soil : Int) (haAgua : Bool) (hour : Int)
    (lightValue : Int) : List Event × Int :=
  let drySoil := decide (soil > SOIL_MOISTURE_THRESHOLD)
  let isNight := isNightHour hour
  let isDark := decide (lightValue > LDR_DARK_THRESHOLD)
  if drySoil && isNight && !haAgua then
    ([Event.log "Encher reservatório!"] ++
     blinkLED 20 LED_BLINK_SHORT ++
     [Event.pinWrite RELE_PIN PinLevel.high], 0)
  else if drySoil && isNight && haAgua && isDark then
    ([Event.log "Horário certo, baixa luminosidade — ligando a bomba!",
      Event.pinWrite LED_PIN PinLevel.high,
      Event.pinWrite RELE_PIN PinLevel.low,
      Event.delayMs PUMP_ON_TIME_MS,
      Event.pinWrite RELE_PIN PinLevel.high,
      Event.pinWrite LED_PIN PinLevel.low], 1)
  else if drySoil && !isDark then
    ([Event.log "Solo seco, mas luminosidade está alta — não ligar a bomba."] ++
     blinkLED 5 LED_BLINK_LONG ++
     [Event.pinWrite RELE_PIN PinLevel.high], 0)
  else
    ([Event.log "Planta em boas condições.",
      Event.pinWrite RELE_PIN PinLevel.high,
      Event.pinWrite LED_PIN PinLevel.low], 0)

/-- Embeds `handleWateringLogic` of the light-aware variant (lines 239-293): the
selected branch followed by the unconditional `sendToThingSpeak` call.
`dhtHumidity` / `dhtTemperature` are the values returned by the fresh
`dht.readHumidity()` / `dht.readTemperature()` calls made at the call site
(line 288-289); `wifiStatus` is the `WiFi.status() == WL_CONNECTED` value
read inside `sendToThingSpeak`; `agua` is the C implicit bool-to-int
conversion of `haAgua`. -/
def handleWateringLogic (soil : Int) (haAgua : Bool) (hour : Int)
    (lightValue : Int) (dhtHumidity dhtTemperature : Int)
    (wifiStatus : Bool) (writeKey : String) (httpCode : Int) : List Event :=
  let r := wateringBranch soil haAgua hour lightValue
  r.1 ++ sendToThingSpeak wifiStatus writeKey lightValue soil
    dhtHumidity dhtTemperature r.2 (if haAgua then 1 else 0) httpCode

end Plant.V1

namespace Plant.V2

open Plant

/-- The branch part of `void handleWateringLogic(int soil, bool haAgua,
int hour)` of the simple variant (lines 517-551): like the light-aware
variant but without `isDark`; the third branch is `else if (drySoil)`. -/
def wateringBranch (soil : Int) (haAgua : Bool) (hour : Int) :
    List Event × Int :=
  let drySoil := decide (soil > SOIL_MOISTURE_THRESHOLD)
  let isNight := isNightHour hour
  if drySoil && isNight && !haAgua then
    ([Event.log "Encher reservatório!"] ++
     blinkLED 20 LED_BLINK_SHORT ++
     [Event.pinWrite RELE_PIN PinLevel.high], 0)
  else if drySoil && isNight && haAgua then
    ([Event.log "Horário certo, ligando a bomba!",
      Event.pinWrite LED_PIN PinLevel.high,
      Event.pinWrite RELE_PIN PinLevel.low,
      Event.delayMs PUMP_ON_TIME_MS,
      Event.pinWrite RELE_PIN PinLevel.high,
      Event.pinWrite LED_PIN PinLevel.low], 1)
  else if drySoil then
    ([Event.log "Planta precisa de água!"] ++
     blinkLED 5 LED_BLINK_LONG ++
     [Event.pinWrite RELE_PIN PinLevel.high], 0)
  else
    ([Event.log "Planta em boas condições.",
      Event.pinWrite RELE_PIN PinLevel.high,
      Event.pinWrite LED_PIN PinLevel.low], 0)

/-- Embeds `handleWateringLogic` of the simple variant (lines 517-562): branch
selection followed by `sendToThingSpeak(digitalRead(LDR_PIN), soil,
dht.readHumidity(), dht.readTemperature(), bombaLigada, haAgua)`.
`ldrState` is the fresh `digitalRead(LDR_PIN)` made at the call site. -/
def handleWateringLogic (soil : Int) (haAgua : Bool) (hour : Int)
    (ldrState : Int) (dhtHumidity dhtTemperature : Int)
    (wifiStatus : Bool) (writeKey : String) (httpCode : Int) : List Event :=
  let r := wateringBranch soil haAgua hour
  r.1 ++ sendToThingSpeak wifiStatus writeKey ldrState soil
    dhtHumidity dhtTemperature r.2 (if haAgua then 1 else 0) httpCode

end Plant.V2

namespace Plant.V1

open Plant

/-- The `while (WiFi.status() != WL_CONNECTED && attempts < WIFI_MAX_ATTEMPTS)`
polling loop of `connectWiFi` (lines 124-129), in fuel-structured form with
the invariant `attempts + remaining = WIFI_MAX_ATTEMPTS`: the loop runs
while the status read is disconnected and `attempts < WIFI_MAX_ATTEMPTS`.
`status k` is the value of the k-th `WiFi.status() == WL_CONNECTED` read
for this candidate.  Returns the value of `attempts` when the loop exits. -/
def pollLoop (status : Nat → Bool) : Nat → Nat → Nat
  | a, 0 => a
  | a, r + 1 => if status a then a else pollLoop status (a + 1) r

/-- The exit value of the polling loop started at `attempts = 0`. -/
def pollAttempts (status : Nat → Bool) : Nat :=
  pollLoop status 0 WIFI_MAX_ATTEMPTS

/-- Whether one candidate network ends up connected: the
`if (WiFi.status() == WL_CONNECTED)` check after the polling loop
(line 132) performs one further status read. -/
def candidateSucceeds (status : Nat → Bool) : Bool :=
  status (pollAttempts status + 1)

/-- Result of `void connectWiFi()` (lines 109-151): the final value of the
global `wifiConnected`, whether `configTime` was called, and how many
candidates from `WIFI_LIST` were tried. -/
structure WiFiResult where
  wifiConnected : Bool
  configTimeCalled : Bool
  triedCount : Nat
deriving DecidableEq

/-- Embeds `void connectWiFi()` of the light-aware variant (lines 109-151): iterate
the `WIFI_LIST` candidates in order (each represented by its status-read
stream); on the first candidate that connects, set `wifiConnected = true`,
call `configTime`, and return; if all fail, set `wifiConnected = false`. -/
def connectWiFi : List (Nat → Bool) → WiFiResult
  | [] => ⟨false, false, 0⟩
  | s :: rest =>
    if candidateSucceeds s then ⟨true, true, 1⟩
    else
      let r := connectWiFi rest
      ⟨r.wifiConnected, r.configTimeCalled, r.triedCount + 1⟩

/-- The two process-wide flags (lines 72-73). -/
structure SysState where
  wifiConnected : Bool
  timeValid : Bool
deriving DecidableEq

/-- The environment reads consumed by one iteration of `loop()` of the
light-aware variant (lines 298-330).  `timeReads k` is the result of the
k-th `getLocalTime` call of the cycle; `dhtHumidity` / `dhtTemperature` are
indexed by DHT read number (read 0 happens in `loop()` at lines 313-314,
read 1 inside `handleWateringLogic` at lines 288-289); `garbageHour` is the
uninitialised `timeinfo.tm_hour` used when the unchecked direct
`getLocalTime` at line 322 fails. -/
structure CycleEnv where
  wifiAtLoopTop : Bool
  wifiAtSend : Bool
  candidates : List (Nat → Bool)
  timeReads : Nat → Option Int
  garbageHour : Int
  lightValue : Int
  soilValue : Int
  dhtHumidity : Nat → Int
  dhtTemperature : Nat → Int
  boiaLow : Bool
  httpCode : Int
  writeKey : String

/-- Events of one `loop()` iteration. -/
inductive LoopEvent
  | reconnect
  | timeSync (ok : Bool)
  | sensorRead (light soil humidity temperature : Int) (haAgua : Bool)
  | watering (es : List Event)
  | delayMs (ms : Int)
deriving DecidableEq

/-- Value of `wifiConnected` after the reconnect check at the top of
`loop()` (lines 301-305). -/
def wifiAfterReconnect (st : SysState) (env : CycleEnv) : Bool :=
  if !env.wifiAtLoopTop && st.wifiConnected then
    (connectWiFi env.candidates).wifiConnected
  else st.wifiConnected

/-- Whether the conditional mid-loop `updateLocalTime()` call runs
(line 308): `if (wifiConnected && !timeValid)`. -/
def preSyncHappens (st : SysState) (env : CycleEnv) : Bool :=
  wifiAfterReconnect st env && !st.timeValid

/-- The `hour` used by the cycle (lines 321-323): the direct, unchecked
`getLocalTime` read — consuming time-read index 1 when the conditional
mid-loop sync already consumed index 0, else index 0; on failure
`timeinfo.tm_hour` is the uninitialised `garbageHour`. -/
def cycleHour (st : SysState) (env : CycleEnv) : Int :=
  (env.timeReads (if preSyncHappens st env then 1 else 0)).getD env.garbageHour

/-- One iteration of `void loop()` of the light-aware variant
(lines 298-330): reconnect check, conditional time resync, sensor reads,
direct hour read, `handleWateringLogic`, unconditional final
`updateLocalTime()`, and the inter-cycle delay.  Returns the new flag state
and the cycle's event trace. -/
def loopCycle (st : SysState) (env : CycleEnv) : SysState × List LoopEvent :=
  let doReconnect := !env.wifiAtLoopTop && st.wifiConnected
  let wc := wifiAfterReconnect st env
  let ev1 : List LoopEvent := if doReconnect then [LoopEvent.reconnect] else []
  let doPreSync := preSyncHappens st env
  let ev2 : List LoopEvent :=
    if doPreSync then [LoopEvent.timeSync (updateLocalTime (env.timeReads 0)).1]
    else []
  let k : Nat := if doPreSync then 1 else 0
  let light := env.lightValue
  let soil := env.soilValue
  let humidity := env.dhtHumidity 0
  let temperature := env.dhtTemperature 0
  let haAgua := env.boiaLow
  let hour := cycleHour st env
  let wes := handleWateringLogic soil haAgua hour light
    (env.dhtHumidity 1) (env.dhtTemperature 1) env.wifiAtSend
    env.writeKey env.httpCode
  let finalSync := updateLocalTime (env.timeReads (k + 1))
  (⟨wc, finalSync.2⟩,
    ev1 ++ ev2 ++
    [LoopEvent.sensorRead light soil humidity temperature haAgua,
     LoopEvent.watering wes,
     LoopEvent.timeSync finalSync.1,
     LoopEvent.delayMs LOOP_DELAY_MS])

/-- Whether a loop-event is a time synchronisation attempt. -/

def isTimeSyncEv : LoopEvent → Bool
  | LoopEvent.timeSync _ => true
  | _ => false

/-- Whether a loop-event is the sensor-snapshot read. -/
def isSensorReadEv : LoopEvent → Bool
  | LoopEvent.sensorRead _ _ _ _ _ => true
  | _ => false

/-- Whether a loop-event is the watering-logic invocation. -/
def isWateringEv : LoopEvent → Bool
  | LoopEvent.watering _ => true
  | _ => false

/-- A time-sync attempt occurs strictly before the sensor read. -/
def syncBeforeSensors (tr : List LoopEvent) : Bool :=
  (tr.takeWhile fun e => !isSensorReadEv e).any isTimeSyncEv

/-- A time-sync attempt occurs at or after the watering-logic invocation. -/
def syncAfterWatering (tr : List LoopEvent) : Bool :=
  (tr.dropWhile fun e => !isWateringEv e).any isTimeSyncEv

/-- The URLs of HTTP GET requests issued anywhere in a cycle trace. -/
def cycleSentURLs (tr : List LoopEvent) : List String :=
  (tr.map fun e =>
    match e with
    | LoopEvent.watering es => sentURLs es
    | _ => []).flatten

end Plant.V1

namespace Plant

/-- Spec-side rendering (for the refinement claim about the telemetry URL):
a query string is the concatenation of `&name=value` items in list order. -/
def specQueryString (ps : List (String × String)) : String :=
  (ps.map fun p => "&" ++ p.1 ++ "=" ++ p.2).foldr (· ++ ·) ""

/-- Spec-side request: `GET /update?api_key=<WRITE_KEY>` on the fixed host
followed by the query parameters in list order. -/
def specUpdateRequest (writeKey : String) (ps : List (String × String)) :
    String :=
  "http://api.thingspeak.com/update?api_key=" ++ writeKey ++ specQueryString ps

/-- Spec-side field layout: `field1=light, field2=soil, field3=humidity,
field4=temperature, field5=pump, field6=water`, in that order. -/
def specFieldOrder (luz solo umidAr temp bomba agua : Int) :
    List (String × String) :=
  [("field1", toString luz), ("field2", toString solo),
   ("field3", toString umidAr), ("field4", toString temp),
   ("field5", toString bomba), ("field6", toString agua)]

-- ---------------- helper lemmas on trace observers ----------------

theorem relayLevels_append (a b : List Event) :
    relayLevels (a ++ b) = relayLevels a ++ relayLevels b :=
  List.filterMap_append a b _

theorem relayLevels_blinkLED (n : Nat) (d : Int) :
    relayLevels (blinkLED n d) = [] := by
  induction n with
  | zero => rfl
  | succ m ih => simp [blinkLED, relayLevels, LED_PIN, RELE_PIN] at ih ⊢; exact ih

theorem relayLevels_send (c : Bool) (k : String) (l s u t b a hc : Int) :
    relayLevels (sendToThingSpeak c k l s u t b a hc) = [] := by
  unfold sendToThingSpeak
  split
  · rfl
  · split <;> rfl

theorem sentURLs_append (a b : List Event) :
    sentURLs (a ++ b) = sentURLs a ++ sentURLs b :=
  List.filterMap_append a b _

theorem sentURLs_blinkLED (n : Nat) (d : Int) :
    sentURLs (blinkLED n d) = [] := by
  induction n with
  | zero => rfl
  | succ m ih => simp [blinkLED, sentURLs] at ih ⊢; exact ih

theorem sentURLs_send (c : Bool) (k : String) (l s u t b a hc : Int) :
    sentURLs (sendToThingSpeak c k l s u t b a hc) =
      if c then [thingSpeakURL k l s u t b a] else [] := by
  unfold sendToThingSpeak
  cases c with
  | false => rfl
  | true =>
    simp only [Bool.not_true, Bool.false_eq_true, if_false, if_true]
    split <;> rfl

end Plant

-- ==========================================================
-- Claims
-- ==========================================================

open Plant

/-- C3: for every hour, `isNightHour hour` is true iff `hour ≥ 18` or
`hour < 12`; consequently the night window covers 18 of the 24 hours of the
day (18:00 through 11:59). -/
theorem c3_night_window_spans_18_hours :
    (∀ hour : Int, isNightHour hour = true ↔
      (hour ≥ NIGHT_START_HOUR ∨ hour < NIGHT_END_HOUR)) ∧
    ((List.range 24).filter (fun h => isNightHour (Int.ofNat h))).length = 18 := by
  constructor
  · intro hour
    simp [isNightHour]
  · decide

/-- C1: whenever the soil reading is at most `SOIL_MOISTURE_THRESHOLD`
(1200), `handleWateringLogic` never drives the relay pin LOW (the pump is
never energized), for every hour, water presence and light level, in both
variants. -/
theorem c1_wet_soil_never_energizes_pump
    (soil : Int) (haAgua : Bool) (hour lightValue dhtH dhtT httpCode : Int)
    (wifiStatus : Bool) (writeKey : String)
    (h : soil ≤ SOIL_MOISTURE_THRESHOLD) :
    PinLevel.low ∉ relayLevels
      (V1.handleWateringLogic soil haAgua hour lightValue dhtH dhtT
        wifiStatus writeKey httpCode) ∧
    PinLevel.low ∉ relayLevels
      (V2.handleWateringLogic soil haAgua hour lightValue dhtH dhtT
        wifiStatus writeKey httpCode) := by
  have hd : decide (soil > SOIL_MOISTURE_THRESHOLD) = false := by
    simp only [SOIL_MOISTURE_THRESHOLD] at h ⊢
    simp
    omega
  constructor
  · simp only [V1.handleWateringLogic, relayLevels_append, relayLevels_send,
      List.append_nil]
    simp [V1.wateringBranch, hd, relayLevels, RELE_PIN, LED_PIN]
  · simp only [V2.handleWateringLogic, relayLevels_append, relayLevels_send,
      List.append_nil]
    simp [V2.wateringBranch, hd, relayLevels, RELE_PIN, LED_PIN]

/-- Witness for C1 at the concrete input soil = 800 (≤ 1200), water
present, hour 20, light 2000. -/
theorem c1_wet_soil_never_energizes_pump_witness :
    (800 : Int) ≤ SOIL_MOISTURE_THRESHOLD ∧
    (PinLevel.low ∉ relayLevels
      (V1.handleWateringLogic 800 true 20 2000 50 25 true "KEY" 200) ∧
     PinLevel.low ∉ relayLevels
      (V2.handleWateringLogic 800 true 20 2000 50 25 true "KEY" 200)) :=
  ⟨by decide,
   c1_wet_soil_never_energizes_pump 800 true 20 2000 50 25 200 true "KEY"
     (by decide)⟩

/-- C10: at the end of every `handleWateringLogic` invocation, in both
variants, the last level written to the relay pin is HIGH (pump
de-energized): the relay pin is written in every branch and every branch
leaves it HIGH, so the pump never stays on across invocations. -/
theorem c10_relay_high_at_return
    (soil : Int) (haAgua : Bool) (hour lightValue dhtH dhtT httpCode : Int)
    (wifiStatus : Bool) (writeKey : String) :
    (relayLevels (V1.handleWateringLogic soil haAgua hour lightValue dhtH dhtT
        wifiStatus writeKey httpCode)).getLast? = some PinLevel.high ∧
    (relayLevels (V2.handleWateringLogic soil haAgua hour lightValue dhtH dhtT
        wifiStatus writeKey httpCode)).getLast? = some PinLevel.high := by
  constructor
  · simp only [V1.handleWateringLogic, relayLevels_append, relayLevels_send,
      List.append_nil, V1.wateringBranch]
    split
    · simp [relayLevels_append, relayLevels_blinkLED, relayLevels, RELE_PIN]
    · split
      · simp [relayLevels, RELE_PIN, LED_PIN]
      · split
        · simp [relayLevels_append, relayLevels_blinkLED, relayLevels,
            RELE_PIN]
        · simp [relayLevels, RELE_PIN, LED_PIN]
  · simp only [V2.handleWateringLogic, relayLevels_append, relayLevels_send,
      List.append_nil, V2.wateringBranch]
    split
    · simp [relayLevels_append, relayLevels_blinkLED, relayLevels, RELE_PIN]
    · split
      · simp [relayLevels, RELE_PIN, LED_PIN]
      · split
        · simp [relayLevels_append, relayLevels_blinkLED, relayLevels,
            RELE_PIN]
        · simp [relayLevels, RELE_PIN, LED_PIN]

/-- C4: in both variants the `bombaLigada` value that `handleWateringLogic`
passes to telemetry as field5 is 1 exactly when the pump-energizing branch
was taken (dry soil, night, water present, and — in the light-aware
variant — dark), and 0 in every other branch; and `handleWateringLogic` is
the selected branch followed by `sendToThingSpeak` applied to that value. -/
theorem c4_field5_iff_pump_branch
    (soil : Int) (haAgua : Bool) (hour lightValue : Int) :
    ((V1.wateringBranch soil haAgua hour lightValue).2 = 1 ↔
      (soil > SOIL_MOISTURE_THRESHOLD ∧ isNightHour hour = true ∧
       haAgua = true ∧ lightValue > LDR_DARK_THRESHOLD)) ∧
    ((V1.wateringBranch soil haAgua hour lightValue).2 = 0 ∨
     (V1.wateringBranch soil haAgua hour lightValue).2 = 1) ∧
    ((V2.wateringBranch soil haAgua hour).2 = 1 ↔
      (soil > SOIL_MOISTURE_THRESHOLD ∧ isNightHour hour = true ∧
       haAgua = true)) ∧
    ((V2.wateringBranch soil haAgua hour).2 = 0 ∨
     (V2.wateringBranch soil haAgua hour).2 = 1) ∧
    (∀ (dhtH dhtT httpCode : Int) (wifiStatus : Bool) (writeKey : String),
      V1.handleWateringLogic soil haAgua hour lightValue dhtH dhtT
          wifiStatus writeKey httpCode =
        (V1.wateringBranch soil haAgua hour lightValue).1 ++
        sendToThingSpeak wifiStatus writeKey lightValue soil dhtH dhtT
          (V1.wateringBranch soil haAgua hour lightValue).2
          (if haAgua then 1 else 0) httpCode) ∧
    (∀ (ldrState dhtH dhtT httpCode : Int) (wifiStatus : Bool)
        (writeKey : String),
      V2.handleWateringLogic soil haAgua hour ldrState dhtH dhtT
          wifiStatus writeKey httpCode =
        (V2.wateringBranch soil haAgua hour).1 ++
        sendToThingSpeak wifiStatus writeKey ldrState soil dhtH dhtT
          (V2.wateringBranch soil haAgua hour).2
          (if haAgua then 1 else 0) httpCode) := by
  refine ⟨?_, ?_, ?_, ?_, fun _ _ _ _ _ => rfl, fun _ _ _ _ _ _ => rfl⟩ <;>
  · by_cases hd : soil > SOIL_MOISTURE_THRESHOLD <;>
    by_cases hk : lightValue > LDR_DARK_THRESHOLD <;>
    cases hn : isNightHour hour <;>
    cases haAgua <;>
    simp [V1.wateringBranch, V2.wateringBranch, hd, hk, hn]

/-- C5: `sendToThingSpeak` issues a request iff the connectivity check at
its top succeeds at call time: when disconnected it produces exactly the
skip log and no request; the number of requests issued per call is 1 when
connected and 0 when not (no retry, no queueing). -/
theorem c5_telemetry_iff_connected
    (writeKey : String) (luz solo umidAr temp bomba agua httpCode : Int)
    (c : Bool) :
    sendToThingSpeak false writeKey luz solo umidAr temp bomba agua httpCode =
      [Event.log "Sem Wi-Fi, não enviando ao ThingSpeak."] ∧
    (sentURLs (sendToThingSpeak c writeKey luz solo umidAr temp bomba agua
        httpCode)).length = (if c then 1 else 0) := by
  refine ⟨rfl, ?_⟩
  rw [sentURLs_send]
  cases c <;> rfl

/-- C6: each connected-state `sendToThingSpeak` call issues exactly one
HTTP GET whose URL is the fixed `/update` endpoint followed by the query
parameters `api_key`, then `field1` (light) through `field6` (water), in
that order; the URL built by the code coincides with the spec-side
rendering of that ordered parameter list. -/
theorem c6_request_shape_and_field_order
    (writeKey : String) (luz solo umidAr temp bomba agua httpCode : Int) :
    sentURLs (sendToThingSpeak true writeKey luz solo umidAr temp bomba agua
        httpCode) =
      [thingSpeakURL writeKey luz solo umidAr temp bomba agua] ∧
    thingSpeakURL writeKey luz solo umidAr temp bomba agua =
      specUpdateRequest writeKey
        (specFieldOrder luz solo umidAr temp bomba agua) := by
  constructor
  · rw [sentURLs_send]
    rfl
  · simp only [thingSpeakURL, specUpdateRequest, specQueryString,
      specFieldOrder, List.map, List.foldr,
      show ("&" ++ "field1" ++ "=" : String) = "&field1=" from rfl,
      show ("&" ++ "field2" ++ "=" : String) = "&field2=" from rfl,
      show ("&" ++ "field3" ++ "=" : String) = "&field3=" from rfl,
      show ("&" ++ "field4" ++ "=" : String) = "&field4=" from rfl,
      show ("&" ++ "field5" ++ "=" : String) = "&field5=" from rfl,
      show ("&" ++ "field6" ++ "=" : String) = "&field6=" from rfl,
      String.append_empty, String.append_assoc]

-- ---------------- helper lemmas for the remaining claims ----------------

theorem pollLoop_le (status : Nat → Bool) :
    ∀ (r a : Nat), V1.pollLoop status a r ≤ a + r := by
  intro r
  induction r with
  | zero => intro a; simp [V1.pollLoop]
  | succ n ih =>
    intro a
    simp only [V1.pollLoop]
    split
    · omega
    · have := ih (a + 1)
      omega

theorem connectWiFi_spec (L : List (Nat → Bool)) :
    (V1.connectWiFi L).wifiConnected = L.any V1.candidateSucceeds ∧
    (V1.connectWiFi L).configTimeCalled = (V1.connectWiFi L).wifiConnected ∧
    (V1.connectWiFi L).triedCount =
      (if L.any V1.candidateSucceeds then
        (L.takeWhile fun s => !V1.candidateSucceeds s).length + 1
      else L.length) := by
  induction L with
  | nil => simp [V1.connectWiFi]
  | cons s rest ih =>
    obtain ⟨ih1, ih2, ih3⟩ := ih
    cases hs : V1.candidateSucceeds s with
    | true => simp [V1.connectWiFi, hs]
    | false =>
      have hc : V1.connectWiFi (s :: rest) =
          ⟨(V1.connectWiFi rest).wifiConnected,
           (V1.connectWiFi rest).configTimeCalled,
           (V1.connectWiFi rest).triedCount + 1⟩ := by
        simp [V1.connectWiFi, hs]
      rw [hc]
      refine ⟨?_, ih2, ?_⟩
      · simp [List.any_cons, hs, ih1]
      · rw [ih3]
        simp only [List.any_cons, hs, Bool.false_or, List.takeWhile_cons,
          Bool.not_false, if_true, List.length_cons]
        cases hr : rest.any V1.candidateSucceeds <;> simp [hr]

theorem sentURLs_wateringBranch_v1 (s : Int) (a : Bool) (h l : Int) :
    sentURLs (V1.wateringBranch s a h l).1 = [] := by
  simp only [V1.wateringBranch]
  split
  · simp only [sentURLs_append, sentURLs_blinkLED]
    rfl
  · split
    · rfl
    · split
      · simp only [sentURLs_append, sentURLs_blinkLED]
        rfl
      · rfl

/-- C2 counterexample: at soil = 1500 (dry), hour = 14 (daytime, so neither
the refill branch nor the pump branch applies), water present, light
reading 2000 (the darkness condition `lightValue > LDR_DARK_THRESHOLD` is
true), the light-aware variant takes the final quiet branch: it emits no
long-blink warning at all, contradicting the claim that this input raises
the `blinkLED(5, LED_BLINK_LONG)` pattern. -/
theorem c2_counterexample_day_dark_no_warning :
    (1500 : Int) > SOIL_MOISTURE_THRESHOLD ∧
    isNightHour 14 = false ∧
    (2000 : Int) > LDR_DARK_THRESHOLD ∧
    (V1.wateringBranch 1500 true 14 2000).1 =
      [Event.log "Planta em boas condições.",
       Event.pinWrite RELE_PIN PinLevel.high,
       Event.pinWrite LED_PIN PinLevel.low] ∧
    containsLongBlink (V1.wateringBranch 1500 true 14 2000).1 = false := by
  decide

/-- C2 (amended): for a dry-soil input on which neither branch 1 nor
branch 2 applies, the pump is never energized and `bombaLigada` stays 0 in
both variants; the simple variant always raises the
`blinkLED(5, LED_BLINK_LONG)` warning, while the light-aware variant raises
it exactly when the darkness condition is false — when the light reading is
above `LDR_DARK_THRESHOLD` (in particular for a daytime hour with darkness
true) it takes the final quiet branch with no warning. -/
theorem c2_amended_long_blink
    (soil : Int) (haAgua : Bool) (hour lightValue : Int) :
    (soil > SOIL_MOISTURE_THRESHOLD → isNightHour hour = false →
      ((V2.wateringBranch soil haAgua hour).1 =
        [Event.log "Planta precisa de água!"] ++
        blinkLED 5 LED_BLINK_LONG ++
        [Event.pinWrite RELE_PIN PinLevel.high] ∧
       (V2.wateringBranch soil haAgua hour).2 = 0 ∧
       relayLevels (V2.wateringBranch soil haAgua hour).1 =
         [PinLevel.high])) ∧
    (soil > SOIL_MOISTURE_THRESHOLD →
      ¬(isNightHour hour = true ∧ haAgua = false) →
      ¬(isNightHour hour = true ∧ haAgua = true ∧
        lightValue > LDR_DARK_THRESHOLD) →
      ((V1.wateringBranch soil haAgua hour lightValue).2 = 0 ∧
       relayLevels (V1.wateringBranch soil haAgua hour lightValue).1 =
         [PinLevel.high] ∧
       (lightValue ≤ LDR_DARK_THRESHOLD →
         (V1.wateringBranch soil haAgua hour lightValue).1 =
           [Event.log
              "Solo seco, mas luminosidade está alta — não ligar a bomba."] ++
           blinkLED 5 LED_BLINK_LONG ++
           [Event.pinWrite RELE_PIN PinLevel.high]) ∧
       (lightValue > LDR_DARK_THRESHOLD →
         (V1.wateringBranch soil haAgua hour lightValue).1 =
           [Event.log "Planta em boas condições.",
            Event.pinWrite RELE_PIN PinLevel.high,
            Event.pinWrite LED_PIN PinLevel.low]))) := by
  by_cases hd : soil > SOIL_MOISTURE_THRESHOLD <;>
  by_cases hk : lightValue > LDR_DARK_THRESHOLD <;>
  cases hn : isNightHour hour <;>
  cases haAgua <;>
  simp [V1.wateringBranch, V2.wateringBranch, hd, hk, hn,
    relayLevels_append, relayLevels_blinkLED] <;>
  decide

/-- Witness for the amended C2 at soil = 1500, water present, hour = 14
(daytime), light 1000 (not dark): both variants raise the long-blink
warning. -/
theorem c2_amended_long_blink_witness :
    (V2.wateringBranch 1500 true 14).1 =
      [Event.log "Planta precisa de água!"] ++
      blinkLED 5 LED_BLINK_LONG ++
      [Event.pinWrite RELE_PIN PinLevel.high] ∧
    (V1.wateringBranch 1500 true 14 1000).1 =
      [Event.log
         "Solo seco, mas luminosidade está alta — não ligar a bomba."] ++
      blinkLED 5 LED_BLINK_LONG ++
      [Event.pinWrite RELE_PIN PinLevel.high] :=
  ⟨((c2_amended_long_blink 1500 true 14 1000).1 (by decide) (by decide)).1,
   (((c2_amended_long_blink 1500 true 14 1000).2 (by decide) (by decide)
      (by decide)).2.2.1 (by decide))⟩

/-- C7: `connectWiFi` tries the candidate list in order: it connects (and
calls `configTime`) exactly when some candidate succeeds, stopping at the
first success without trying the remaining candidates; when every candidate
fails it tries them all and leaves `wifiConnected` false; and each
candidate's polling loop performs at most `WIFI_MAX_ATTEMPTS` attempts. -/
theorem c7_association_tries_candidates_in_order (L : List (Nat → Bool)) :
    (V1.connectWiFi L).wifiConnected = L.any V1.candidateSucceeds ∧
    (V1.connectWiFi L).configTimeCalled = (V1.connectWiFi L).wifiConnected ∧
    (V1.connectWiFi L).triedCount =
      (if L.any V1.candidateSucceeds then
        (L.takeWhile fun s => !V1.candidateSucceeds s).length + 1
      else L.length) ∧
    (∀ status : Nat → Bool, V1.pollAttempts status ≤ WIFI_MAX_ATTEMPTS) :=
  ⟨(connectWiFi_spec L).1, (connectWiFi_spec L).2.1, (connectWiFi_spec L).2.2,
   fun status => by simpa using pollLoop_le status WIFI_MAX_ATTEMPTS 0⟩

/-- C8: in every `loop()` cycle a time-sync attempt precedes the sensor
read exactly when `wifiConnected && !timeValid` holds after the reconnect
check, a time-sync attempt unconditionally follows the watering logic at
the end of the cycle, the cycle's final `timeValid` is the success of that
final read, and `updateLocalTime` sets `timeValid` to true exactly when the
time read succeeds. -/
theorem c8_time_resync_call_sites (st : V1.SysState) (env : V1.CycleEnv) :
    V1.syncBeforeSensors (V1.loopCycle st env).2 =
      (V1.wifiAfterReconnect st env && !st.timeValid) ∧
    V1.syncAfterWatering (V1.loopCycle st env).2 = true ∧
    (V1.loopCycle st env).1.timeValid =
      (env.timeReads
        ((if V1.preSyncHappens st env then 1 else 0) + 1)).isSome ∧
    (∀ read : Option Int,
      (updateLocalTime read).2 = read.isSome ∧
      (updateLocalTime read).1 = read.isSome) := by
  refine ⟨?_, ?_, ?_, ?_⟩
  · rw [show (V1.wifiAfterReconnect st env && !st.timeValid) =
        V1.preSyncHappens st env from rfl]
    cases hr : (!env.wifiAtLoopTop && st.wifiConnected) <;>
    cases hp : V1.preSyncHappens st env <;>
    simp [V1.loopCycle, hr, hp, V1.syncBeforeSensors,
      V1.isTimeSyncEv, V1.isSensorReadEv]
  · cases hr : (!env.wifiAtLoopTop && st.wifiConnected) <;>
    cases hp : V1.preSyncHappens st env <;>
    simp [V1.loopCycle, hr, hp, V1.syncAfterWatering,
      V1.isTimeSyncEv, V1.isWateringEv]
  · cases hr : (!env.wifiAtLoopTop && st.wifiConnected) <;>
    cases hp : V1.preSyncHappens st env <;>
    cases ht : env.timeReads ((if V1.preSyncHappens st env then 1 else 0) + 1) <;>
    simp_all [V1.loopCycle, updateLocalTime]
  · intro read
    cases read <;> simp [updateLocalTime]

/-- A concrete cycle environment for C9: connected, night hour 20, dry soil
1500, dark light 2000, water present; the DHT answers 50 % / 25 °C on the
cycle's snapshot read (read 0) and 60 % / 26 °C on the later telemetry-time
read (read 1). -/
def c9EnvA : V1.CycleEnv where
  wifiAtLoopTop := true
  wifiAtSend := true
  candidates := []
  timeReads := fun _ => some 20
  garbageHour := 0
  lightValue := 2000
  soilValue := 1500
  dhtHumidity := fun n => if n = 0 then 50 else 60
  dhtTemperature := fun n => if n = 0 then 25 else 26
  boiaLow := true
  httpCode := 200
  writeKey := "KEY"

/-- Flag state for the C9 cycle: connected with valid time. -/
def c9StA : V1.SysState := ⟨true, true⟩

/-- C9 counterexample: in the concrete cycle `c9EnvA` the sensor snapshot
records humidity 50 and temperature 25, but the URL actually sent carries
`field3=60&field4=26` — the values of the second, telemetry-time DHT read —
and differs from the URL that the snapshot values would have produced.  So
the uploaded field3/field4 do not equal the cycle's snapshot values. -/
theorem c9_counterexample_telemetry_rereads_dht :
    V1.LoopEvent.sensorRead 2000 1500 50 25 true ∈
      (V1.loopCycle c9StA c9EnvA).2 ∧
    V1.cycleSentURLs (V1.loopCycle c9StA c9EnvA).2 =
      [thingSpeakURL "KEY" 2000 1500 60 26 1 1] ∧
    thingSpeakURL "KEY" 2000 1500 60 26 1 1 ≠
      thingSpeakURL "KEY" 2000 1500 50 25 1 1 := by
  decide

/-- C9 (amended): the telemetry report of a connected cycle carries the
cycle's light and soil snapshot values, but its field3/field4 come from the
separate DHT read performed inside `handleWateringLogic` at telemetry time
(read index 1), not from the snapshot read (index 0) taken earlier by the
main loop — the two coincide only when the sensor returns the same values
twice. -/
theorem c9_amended_telemetry_uses_fresh_dht_read
    (st : V1.SysState) (env : V1.CycleEnv) (h : env.wifiAtSend = true) :
    V1.cycleSentURLs (V1.loopCycle st env).2 =
      [thingSpeakURL env.writeKey env.lightValue env.soilValue
        (env.dhtHumidity 1) (env.dhtTemperature 1)
        (V1.wateringBranch env.soilValue env.boiaLow (V1.cycleHour st env)
          env.lightValue).2
        (if env.boiaLow then 1 else 0)] ∧
    V1.LoopEvent.sensorRead env.lightValue env.soilValue (env.dhtHumidity 0)
      (env.dhtTemperature 0) env.boiaLow ∈ (V1.loopCycle st env).2 := by
  constructor
  · cases hr : (!env.wifiAtLoopTop && st.wifiConnected) <;>
    cases hp : V1.preSyncHappens st env <;>
    simp [V1.loopCycle, hr, hp, V1.cycleSentURLs, V1.handleWateringLogic, h,
      sentURLs_append, sentURLs_wateringBranch_v1, sentURLs_send]
  · cases hr : (!env.wifiAtLoopTop && st.wifiConnected) <;>
    cases hp : V1.preSyncHappens st env <;>
    simp [V1.loopCycle, hr, hp]

/-- Witness for the amended C9 at the concrete cycle `c9EnvA`. -/
theorem c9_amended_telemetry_witness :
    c9EnvA.wifiAtSend = true ∧
    V1.cycleSentURLs (V1.loopCycle c9StA c9EnvA).2 =
      [thingSpeakURL c9EnvA.writeKey c9EnvA.lightValue c9EnvA.soilValue
        (c9EnvA.dhtHumidity 1) (c9EnvA.dhtTemperature 1)
        (V1.wateringBranch c9EnvA.soilValue c9EnvA.boiaLow
          (V1.cycleHour c9StA c9EnvA) c9EnvA.lightValue).2
        (if c9EnvA.boiaLow then 1 else 0)] :=
  ⟨rfl, (c9_amended_telemetry_uses_fresh_dht_read c9StA c9EnvA rfl).1⟩
